import Mathlib

set_option maxRecDepth 20000
set_option linter.dupNamespace false

/-!
Shallow embedding of the regex crate (src/parse.rs and src/compile.rs).

The parser state (Rust `Parser { chars: Peekable<Chars> }`) is a list of
codepoints still to be consumed. Rust control effects are made explicit:
`Result<Regex, ()>` becomes `PRes.ok` / `PRes.err`, a Rust `panic!` or
`todo!` becomes `PRes.panicked` (and `Option.none` on the compiler side).
General recursion in the mutually recursive descent functions is driven by
a fuel parameter; `PRes.outOfFuel` marks fuel exhaustion and never occurs
on the inputs evaluated below (every concrete evaluation reduces to
`ok`/`err`/`panicked`, which proves the fuel was sufficient there).
-/

/-- Rust `std::ops::Range<char>` (the payload of `Regex::Range`): a
half-open interval; `contains` is `start <= it && it < end`. -/
structure StdRange where
  start : Char
  «end» : Char
deriving DecidableEq, Repr

/-- Rust `Range::contains`: `start <= item && item < end` (half-open). -/
def StdRange.contains (r : StdRange) (c : Char) : Bool :=
  decide (r.start ≤ c) && decide (c < r.«end»)

namespace parse

/-- `parse.rs` `enum Primitive`. -/
inductive Primitive where
  | Word
  | Digit
deriving DecidableEq, Repr

/-- `parse.rs` `enum Regex` (the AST). -/
inductive Regex where
  | Choice (a b : Regex)
  | Sequence (items : List Regex)
  | Repetition (inner : Regex)
  | Set (elems : List Regex)
  | Range (r : StdRange)
  | Primitive (p : Primitive)
  | Char (c : Char)
deriving Repr

/-- `parse.rs` `struct Parser`: the not-yet-consumed codepoints. -/
structure Parser where
  chars : List Char
deriving DecidableEq, Repr

/-- Outcome of a parser routine: `Ok` (Rust `Ok(v)`), `err` (Rust
`Err(())` — the error type of `RegexResult` is the unit type and carries
no information), `panicked` (the routine hit `panic!`), or `outOfFuel`
(embedding artifact of the fuel-driven recursion). -/
inductive PRes (α : Type) where
  | ok (val : α)
  | err
  | panicked
  | outOfFuel
deriving DecidableEq, Repr

/-- `Parser::next`: pop the next codepoint. -/
def Parser.next (self : Parser) : Option Char × Parser :=
  match self.chars with
  | [] => (none, ⟨[]⟩)
  | c :: rest => (some c, ⟨rest⟩)

/-- `Parser::peek`: look at the next codepoint without consuming it. -/
def Parser.peek (self : Parser) : Option Char :=
  self.chars.head?

/-- `Parser::expect`: consume `c` if it is next, otherwise
`panic!("handle this better")`. -/
def Parser.expect (c : Char) (self : Parser) : PRes Unit × Parser :=
  if Parser.peek self = some c then (PRes.ok (), (Parser.next self).2)
  else (PRes.panicked, self)

/-- `Parser::set_elem`: one element of a `[...]` class — a single char,
or `first-second` parsed into `Regex::Range(first..second)`. -/
def Parser.set_elem (self : Parser) : PRes Regex × Parser :=
  match Parser.next self with
  | (some first_char, self1) =>
    if Parser.peek self1 = some '-' then
      let self2 := (Parser.next self1).2
      match Parser.next self2 with
      | (some second_char, self3) =>
        (PRes.ok (Regex.Range ⟨first_char, second_char⟩), self3)
      | (none, self3) => (PRes.err, self3)
    else (PRes.ok (Regex.Char first_char), self1)
  | (none, self1) => (PRes.err, self1)

/-- The `while let Some('*') = self.peek()` loop of `Parser::factor`,
over the parser's remaining codepoints: each consumed `'*'` wraps the
base in one more `Regex::Repetition`. -/
def Parser.starLoop : Regex → List Char → Regex × List Char
  | b, c :: rest =>
    if c = '*' then Parser.starLoop (Regex.Repetition b) rest
    else (b, c :: rest)
  | b, [] => (b, [])

mutual

/-- `Parser::regex`: `term ('|' regex)?`. -/
def Parser.regex : Nat → Parser → PRes Regex × Parser
  | 0, self => (PRes.outOfFuel, self)
  | fuel + 1, self =>
    match Parser.term fuel self with
    | (PRes.ok term, self1) =>
      if Parser.peek self1 = some '|' then
        let self2 := (Parser.next self1).2
        match Parser.regex fuel self2 with
        | (PRes.ok rhs, self3) => (PRes.ok (Regex.Choice term rhs), self3)
        | (PRes.err, s) => (PRes.err, s)
        | (PRes.panicked, s) => (PRes.panicked, s)
        | (PRes.outOfFuel, s) => (PRes.outOfFuel, s)
      else (PRes.ok term, self1)
    | (PRes.err, s) => (PRes.err, s)
    | (PRes.panicked, s) => (PRes.panicked, s)
    | (PRes.outOfFuel, s) => (PRes.outOfFuel, s)

/-- `Parser::term`: a sequence of factors, wrapped in `Regex::Sequence`. -/
def Parser.term : Nat → Parser → PRes Regex × Parser
  | 0, self => (PRes.outOfFuel, self)
  | fuel + 1, self =>
    match Parser.termLoop fuel self with
    | (PRes.ok sequence, self1) => (PRes.ok (Regex.Sequence sequence), self1)
    | (PRes.err, s) => (PRes.err, s)
    | (PRes.panicked, s) => (PRes.panicked, s)
    | (PRes.outOfFuel, s) => (PRes.outOfFuel, s)

/-- The `loop` of `Parser::term`: collect factors until end of input,
`')'` or `'|'`. -/
def Parser.termLoop : Nat → Parser → PRes (List Regex) × Parser
  | 0, self => (PRes.outOfFuel, self)
  | fuel + 1, self =>
    match Parser.peek self with
    | none => (PRes.ok [], self)
    | some c =>
      if c = ')' ∨ c = '|' then (PRes.ok [], self)
      else
        match Parser.factor fuel self with
        | (PRes.ok next_factor, self1) =>
          match Parser.termLoop fuel self1 with
          | (PRes.ok rest, self2) => (PRes.ok (next_factor :: rest), self2)
          | (PRes.err, s) => (PRes.err, s)
          | (PRes.panicked, s) => (PRes.panicked, s)
          | (PRes.outOfFuel, s) => (PRes.outOfFuel, s)
        | (PRes.err, s) => (PRes.err, s)
        | (PRes.panicked, s) => (PRes.panicked, s)
        | (PRes.outOfFuel, s) => (PRes.outOfFuel, s)

/-- `Parser::factor`: a base followed by zero or more `'*'`. -/
def Parser.factor : Nat → Parser → PRes Regex × Parser
  | 0, self => (PRes.outOfFuel, self)
  | fuel + 1, self =>
    match Parser.base fuel self with
    | (PRes.ok b, self1) =>
      let (b2, rest) := Parser.starLoop b self1.chars
      (PRes.ok b2, ⟨rest⟩)
    | (PRes.err, s) => (PRes.err, s)
    | (PRes.panicked, s) => (PRes.panicked, s)
    | (PRes.outOfFuel, s) => (PRes.outOfFuel, s)

/-- `Parser::base`: group, escape, set, single char; `Err(())` at end of
input.  The escape arm maps `'w'` to `Primitive::Word`, `'d'` to
`Primitive::Digit`, and `return Err(())` for every other codepoint. -/
def Parser.base : Nat → Parser → PRes Regex × Parser
  | 0, self => (PRes.outOfFuel, self)
  | fuel + 1, self =>
    match Parser.peek self with
    | some c =>
      if c = '(' then
        let self1 := (Parser.next self).2
        match Parser.regex fuel self1 with
        | (PRes.ok regex, self2) =>
          match Parser.expect ')' self2 with
          | (PRes.ok _, self3) => (PRes.ok regex, self3)
          | (PRes.err, s) => (PRes.err, s)
          | (PRes.panicked, s) => (PRes.panicked, s)
          | (PRes.outOfFuel, s) => (PRes.outOfFuel, s)
        | (PRes.err, s) => (PRes.err, s)
        | (PRes.panicked, s) => (PRes.panicked, s)
        | (PRes.outOfFuel, s) => (PRes.outOfFuel, s)
      else if c = '\\' then
        let self1 := (Parser.next self).2
        match Parser.next self1 with
        | (some esc, self2) =>
          if esc = 'w' then (PRes.ok (Regex.Primitive Primitive.Word), self2)
          else if esc = 'd' then (PRes.ok (Regex.Primitive Primitive.Digit), self2)
          else (PRes.err, self2)
        | (none, self2) => (PRes.err, self2)
      else if c = '[' then
        let self1 := (Parser.next self).2
        match Parser.setLoop fuel self1 with
        | (PRes.ok elems, self2) =>
          let self3 := (Parser.next self2).2
          (PRes.ok (Regex.Set elems), self3)
        | (PRes.err, s) => (PRes.err, s)
        | (PRes.panicked, s) => (PRes.panicked, s)
        | (PRes.outOfFuel, s) => (PRes.outOfFuel, s)
      else
        let self1 := (Parser.next self).2
        (PRes.ok (Regex.Char c), self1)
    | none => (PRes.err, self)

/-- The `while self.peek() != Some(']')` loop of the `'['` arm of
`Parser::base`. -/
def Parser.setLoop : Nat → Parser → PRes (List Regex) × Parser
  | 0, self => (PRes.outOfFuel, self)
  | fuel + 1, self =>
    if Parser.peek self = some ']' then (PRes.ok [], self)
    else
      match Parser.set_elem self with
      | (PRes.ok e, self1) =>
        match Parser.setLoop fuel self1 with
        | (PRes.ok rest, self2) => (PRes.ok (e :: rest), self2)
        | (PRes.err, s) => (PRes.err, s)
        | (PRes.panicked, s) => (PRes.panicked, s)
        | (PRes.outOfFuel, s) => (PRes.outOfFuel, s)
      | (PRes.err, s) => (PRes.err, s)
      | (PRes.panicked, s) => (PRes.panicked, s)
      | (PRes.outOfFuel, s) => (PRes.outOfFuel, s)

end

/-- `Parser::parse`: build the parser over the pattern's codepoints and
run `Parser::regex`; the parser state is dropped (trailing unconsumed
input is ignored, as in the source).  The fuel `6 * length + 16` strictly
dominates the recursion depth: at most five descent frames
(`regex`/`term`/`termLoop`/`factor`/`base`) are opened per consumed
codepoint. -/
def Parser.parse (regex : List Char) : PRes Regex :=
  let parser : Parser := ⟨regex⟩
  (Parser.regex (6 * regex.length + 16) parser).1

end parse

namespace compile

/-- `compile.rs` `enum Primitive` (a second copy, distinct from
`parse::Primitive`). -/
inductive Primitive where
  | Word
  | Digit
deriving DecidableEq, Repr

/-- `compile.rs` `enum TransitionType`. -/
inductive TransitionType where
  | Range (r : StdRange)
  | Primitive (p : Primitive)
  | Char (c : Char)
  | Always
deriving DecidableEq, Repr

/-- `compile.rs` `struct Transition`. -/
structure Transition where
  target_node : Nat
  condition : TransitionType
deriving DecidableEq, Repr

/-- `compile.rs` `struct Node`. -/
structure Node where
  «end» : Bool
  transitions : List Transition
deriving DecidableEq, Repr

/-- `Node::default()`: `end = false`, no transitions. -/
def Node.default : Node := ⟨false, []⟩

/-- `compile.rs` `struct RegexFsm`. -/
structure RegexFsm where
  nodes : List Node
deriving DecidableEq, Repr

/-- `Compiler::reserve_node_slot`: push a placeholder node, return its
index.  The `Compiler`'s `nodes: Vec<Node>` is passed explicitly. -/
def Compiler.reserve_node_slot (nodes : List Node) : Nat × List Node :=
  let nodes := nodes ++ [Node.default]
  (nodes.length - 1, nodes)

/-- `Compiler::allocating`: reserve a slot, run `f` on a fresh default
node and the slot index to obtain the transition condition, fill the
slot, and push a transition onto `nodes[node_before]` (whose
`get_mut(..).unwrap()` panics — `none` — if `node_before` is out of
bounds). -/
def Compiler.allocating (node_before : Nat)
    (f : Node → Nat → Node × TransitionType) (nodes : List Node) :
    Option (Nat × List Node) :=
  let (next_node_slot, nodes1) := Compiler.reserve_node_slot nodes
  let next_node := Node.default
  let (next_node, this_condition) := f next_node next_node_slot
  let nodes2 := nodes1.set next_node_slot next_node
  match nodes2.get? node_before with
  | none => none
  | some before =>
    let before :=
      { before with
        transitions := before.transitions ++
          [⟨next_node_slot, this_condition⟩] }
    some (next_node_slot, nodes2.set node_before before)

/-- `Compiler::compile`: `Char` and `Primitive` go through `allocating`;
`Sequence` compiles its first element (if any) and then hits `todo!()`;
`Choice`, `Repetition`, `Set` and `Range` hit `todo!()` immediately.
`todo!()` panics, which the embedding returns as `none`. -/
def Compiler.compile :
    parse.Regex → Nat → List Node → Option (Nat × List Node)
  | parse.Regex.Char c, node_before, nodes =>
    Compiler.allocating node_before
      (fun next_node _ => (next_node, TransitionType.Char c)) nodes
  | parse.Regex.Sequence terms, _, nodes =>
    match terms with
    | first :: _ =>
      let _ := Compiler.compile first 0 nodes
      none
    | [] => none
  | parse.Regex.Primitive primitive, node_before, nodes =>
    Compiler.allocating node_before
      (fun next_node _ =>
        (next_node,
          TransitionType.Primitive
            (match primitive with
             | parse.Primitive.Word => Primitive.Word
             | parse.Primitive.Digit => Primitive.Digit))) nodes
  | parse.Regex.Choice _ _, _, _ => none
  | parse.Regex.Repetition _, _, _ => none
  | parse.Regex.Set _, _, _ => none
  | parse.Regex.Range _, _, _ => none

/-- Free function `compile`: reserve the start node (index 0), run
`Compiler::compile` with `node_before = 0`, and wrap the arena in
`RegexFsm`.  `none` models a panic (`todo!()` in `Compiler::compile`). -/
def compile (regex : parse.Regex) : Option RegexFsm :=
  let nodes : List Node := []
  let (_, nodes) := Compiler.reserve_node_slot nodes
  match Compiler.compile regex 0 nodes with
  | none => none
  | some (_, nodes) => some ⟨nodes⟩

end compile

/-!
Evaluation lemmas for the compiler, shared by the theorems below.
`Compiler::compile` completes only on the `Char` and `Primitive`
variants; every other variant reaches `todo!()` and panics (`none`).
-/

theorem compile_char_eq (c : Char) :
    compile.compile (parse.Regex.Char c) =
      some ⟨[⟨false, [⟨1, compile.TransitionType.Char c⟩]⟩, ⟨false, []⟩]⟩ := rfl

theorem compile_primitive_eq (p : parse.Primitive) :
    compile.compile (parse.Regex.Primitive p) =
      some ⟨[⟨false,
        [⟨1, compile.TransitionType.Primitive
          (match p with
           | parse.Primitive.Word => compile.Primitive.Word
           | parse.Primitive.Digit => compile.Primitive.Digit)⟩]⟩,
        ⟨false, []⟩]⟩ := by
  cases p <;> rfl

theorem compile_choice_eq (a b : parse.Regex) :
    compile.compile (parse.Regex.Choice a b) = none := rfl

theorem compile_sequence_eq (ts : List parse.Regex) :
    compile.compile (parse.Regex.Sequence ts) = none := by
  cases ts <;> rfl

theorem compile_repetition_eq (r : parse.Regex) :
    compile.compile (parse.Regex.Repetition r) = none := rfl

theorem compile_set_eq (es : List parse.Regex) :
    compile.compile (parse.Regex.Set es) = none := rfl

theorem compile_range_eq (r : StdRange) :
    compile.compile (parse.Regex.Range r) = none := rfl

/-!
Claim theorems.
-/

/-- C1: the claim says `compile` is total on every AST variant.  It is
not: `Compiler::compile` reaches `todo!()` — a panic, `none` here — on
`Repetition`, `Sequence` (empty or not), `Choice`, `Set` and `Range`;
only `Char` and `Primitive` complete. -/
theorem compile_todo_panics :
    compile.compile (parse.Regex.Repetition (parse.Regex.Char 'a')) = none ∧
    compile.compile (parse.Regex.Sequence []) = none ∧
    compile.compile (parse.Regex.Sequence [parse.Regex.Char 'a']) = none ∧
    compile.compile (parse.Regex.Choice (parse.Regex.Char 'a') (parse.Regex.Char 'b')) = none ∧
    compile.compile (parse.Regex.Set []) = none ∧
    compile.compile (parse.Regex.Range ⟨'a', 'c'⟩) = none :=
  ⟨rfl, rfl, rfl, rfl, rfl, rfl⟩

/-- C2: the claim says malformed input such as `"(a"` yields a parse
error value and never a panic.  In fact `Parser::expect` executes
`panic!("handle this better")` when the expected `')'` is missing, so
parsing `"(a"` panics instead of returning an error value. -/
theorem parse_unterminated_group_panics :
    parse.Parser.parse ['(', 'a'] = parse.PRes.panicked := rfl

/-- C3: compiling `Char('a')` does produce two nodes with the single
`Char('a')` transition from node 0 to node 1, but node 1's accept flag
is `false`, not `true`: no code path in `compile.rs` ever sets `end`
(the closure passed to `allocating` ignores its node argument), which
contradicts both the claim and the crate's own `single_char` test. -/
theorem compile_char_missing_accept :
    compile.compile (parse.Regex.Char 'a') =
      some ⟨[⟨false, [⟨1, compile.TransitionType.Char 'a'⟩]⟩, ⟨false, []⟩]⟩ ∧
    compile.compile (parse.Regex.Char 'a') ≠
      some ⟨[⟨false, [⟨1, compile.TransitionType.Char 'a'⟩]⟩, ⟨true, []⟩]⟩ :=
  ⟨rfl, by decide⟩

/-- C4: the claim says the range parsed from `"[x-y]"` is inclusive on
both ends.  `Parser::set_elem` builds `Regex::Range(x..y)` from Rust's
half-open `std::ops::Range`, whose `contains` is `x <= c && c < y`: for
`"[a-c]"` the codepoints `'a'` and `'b'` are contained but the upper
bound `'c'` is not. -/
theorem parse_range_half_open :
    parse.Parser.parse ['[', 'a', '-', 'c', ']'] =
      parse.PRes.ok (parse.Regex.Sequence
        [parse.Regex.Set [parse.Regex.Range ⟨'a', 'c'⟩]]) ∧
    StdRange.contains ⟨'a', 'c'⟩ 'a' = true ∧
    StdRange.contains ⟨'a', 'c'⟩ 'b' = true ∧
    StdRange.contains ⟨'a', 'c'⟩ 'c' = false :=
  ⟨rfl, by decide, by decide, by decide⟩

/-- C5: the claim says every compiled FSM has a reachable accept node.
In fact no node of any FSM that `compile` returns has its accept flag
set: `compile.rs` never assigns `end = true` anywhere. -/
theorem compile_never_marks_accept (r : parse.Regex) (fsm : compile.RegexFsm)
    (h : compile.compile r = some fsm) :
    ∀ n ∈ fsm.nodes, n.«end» = false := by
  cases r with
  | Choice a b =>
    rw [compile_choice_eq] at h
    exact Option.noConfusion h
  | Sequence ts =>
    rw [compile_sequence_eq] at h
    exact Option.noConfusion h
  | Repetition inner =>
    rw [compile_repetition_eq] at h
    exact Option.noConfusion h
  | Set es =>
    rw [compile_set_eq] at h
    exact Option.noConfusion h
  | Range rg =>
    rw [compile_range_eq] at h
    exact Option.noConfusion h
  | Primitive p =>
    rw [compile_primitive_eq] at h
    injection h with h2
    subst h2
    intro n hn
    fin_cases hn <;> rfl
  | Char c =>
    rw [compile_char_eq] at h
    injection h with h2
    subst h2
    intro n hn
    fin_cases hn <;> rfl

/-- Witness for C5's theorem at the concrete AST `Char('a')`. -/
theorem compile_never_marks_accept_witness :
    compile.compile (parse.Regex.Char 'a') =
      some ⟨[⟨false, [⟨1, compile.TransitionType.Char 'a'⟩]⟩, ⟨false, []⟩]⟩ ∧
    (⟨false, [⟨1, compile.TransitionType.Char 'a'⟩]⟩ : compile.Node).«end» = false :=
  ⟨rfl,
    compile_never_marks_accept (parse.Regex.Char 'a') _ rfl
      ⟨false, [⟨1, compile.TransitionType.Char 'a'⟩]⟩ (List.mem_cons_self _ _)⟩

/-- C6: the claim says the returned error value identifies which error
kind occurred.  The parser's error type is the unit type (`Result<Regex,
()>`), so two different failure conditions — a dangling escape (`"\"`)
and an unterminated set (`"[ab"`) — return literally the same value. -/
theorem parse_error_values_identical :
    parse.Parser.parse ['\\'] = parse.PRes.err ∧
    parse.Parser.parse ['[', 'a', 'b'] = parse.PRes.err ∧
    parse.Parser.parse ['\\'] = parse.Parser.parse ['[', 'a', 'b'] :=
  ⟨rfl, rfl, rfl⟩

/-- C6 amended: every parse failure that returns (rather than panics)
returns the single information-free `Err(())`; distinct failure
conditions — unknown escape class (`"\x"`), unterminated set (`"[a"`),
dangling escape after an alternation (`"a|\"`) — produce identical,
indistinguishable error values. -/
theorem parse_error_type_is_unit :
    parse.Parser.parse ['\\', 'x'] = parse.PRes.err ∧
    parse.Parser.parse ['[', 'a'] = parse.PRes.err ∧
    parse.Parser.parse ['a', '|', '\\'] = parse.PRes.err ∧
    parse.Parser.parse ['\\', 'x'] = parse.Parser.parse ['[', 'a'] ∧
    parse.Parser.parse ['[', 'a'] = parse.Parser.parse ['a', '|', '\\'] :=
  ⟨rfl, rfl, rfl, rfl, rfl⟩

/-- C7: the claim says an escaped character outside the recognized
primitive set parses to a literal `Char`.  It does not: the escape arm
of `Parser::base` hits `return Err(())` for any codepoint other than
`'w'` and `'d'`, so `"\a"` is a parse error, not `Char('a')`. -/
theorem parse_escape_literal_cex :
    parse.Parser.parse ['\\', 'a'] = parse.PRes.err ∧
    parse.Parser.parse ['\\', 'a'] ≠
      parse.PRes.ok (parse.Regex.Sequence [parse.Regex.Char 'a']) :=
  ⟨rfl, fun h =>
    parse.PRes.noConfusion
      ((Eq.symm (rfl : parse.Parser.parse ['\\', 'a'] = parse.PRes.err)).trans h)⟩

/-- C7 amended: `\w` parses to `Primitive(Word)`, `\d` to
`Primitive(Digit)`, and an escape of any other codepoint is rejected
with `Err(())`. -/
theorem parse_escape_policy (c : Char) (h1 : c ≠ 'w') (h2 : c ≠ 'd') :
    parse.Parser.parse ['\\', 'w'] =
      parse.PRes.ok (parse.Regex.Sequence [parse.Regex.Primitive parse.Primitive.Word]) ∧
    parse.Parser.parse ['\\', 'd'] =
      parse.PRes.ok (parse.Regex.Sequence [parse.Regex.Primitive parse.Primitive.Digit]) ∧
    parse.Parser.parse ['\\', c] = parse.PRes.err := by
  refine ⟨rfl, rfl, ?_⟩
  have hbase : parse.Parser.base 24 ⟨['\\', c]⟩ = (parse.PRes.err, ⟨[]⟩) := by
    show (if c = 'w' then
            (parse.PRes.ok (parse.Regex.Primitive parse.Primitive.Word),
              (⟨[]⟩ : parse.Parser))
          else if c = 'd' then
            (parse.PRes.ok (parse.Regex.Primitive parse.Primitive.Digit),
              (⟨[]⟩ : parse.Parser))
          else (parse.PRes.err, (⟨[]⟩ : parse.Parser))) =
        (parse.PRes.err, (⟨[]⟩ : parse.Parser))
    rw [if_neg h1, if_neg h2]
  have hfac : parse.Parser.factor 25 ⟨['\\', c]⟩ = (parse.PRes.err, ⟨[]⟩) := by
    rw [parse.Parser.factor, hbase]
  have hloop : parse.Parser.termLoop 26 ⟨['\\', c]⟩ = (parse.PRes.err, ⟨[]⟩) := by
    rw [parse.Parser.termLoop, hfac]
    rfl
  have hterm : parse.Parser.term 27 ⟨['\\', c]⟩ = (parse.PRes.err, ⟨[]⟩) := by
    rw [parse.Parser.term, hloop]
  have hreg : parse.Parser.regex 28 ⟨['\\', c]⟩ = (parse.PRes.err, ⟨[]⟩) := by
    rw [parse.Parser.regex, hterm]
  show (parse.Parser.regex (6 * (['\\', c].length) + 16) ⟨['\\', c]⟩).1 = parse.PRes.err
  rw [show 6 * (['\\', c].length) + 16 = 28 from rfl, hreg]

/-- Witness for C7's amended theorem at the concrete escape `"\z"`. -/
theorem parse_escape_policy_witness :
    'z' ≠ 'w' ∧ 'z' ≠ 'd' ∧ parse.Parser.parse ['\\', 'z'] = parse.PRes.err :=
  ⟨by decide, by decide, (parse_escape_policy 'z' (by decide) (by decide)).2.2⟩

/-- C8: the claim says repeated stars collapse, `parse("a**") =
parse("a*")`.  They do not: each `'*'` consumed by `Parser::factor`
wraps the base in one more `Regex::Repetition`. -/
theorem parse_double_star_cex :
    parse.Parser.parse ['a', '*', '*'] ≠ parse.Parser.parse ['a', '*'] := by
  intro h
  rw [show parse.Parser.parse ['a', '*', '*'] =
        parse.PRes.ok (parse.Regex.Sequence
          [parse.Regex.Repetition (parse.Regex.Repetition (parse.Regex.Char 'a'))]) from rfl,
      show parse.Parser.parse ['a', '*'] =
        parse.PRes.ok (parse.Regex.Sequence
          [parse.Regex.Repetition (parse.Regex.Char 'a')]) from rfl] at h
  simp at h

/-- C8 amended: repeated postfix stars nest rather than collapse —
`"a**"` parses to `Sequence([Repetition(Repetition(Char('a')))])`, while
`"a*"` parses to `Sequence([Repetition(Char('a'))])`. -/
theorem parse_double_star_nests :
    parse.Parser.parse ['a', '*', '*'] =
      parse.PRes.ok (parse.Regex.Sequence
        [parse.Regex.Repetition (parse.Regex.Repetition (parse.Regex.Char 'a'))]) ∧
    parse.Parser.parse ['a', '*'] =
      parse.PRes.ok (parse.Regex.Sequence
        [parse.Regex.Repetition (parse.Regex.Char 'a')]) :=
  ⟨rfl, rfl⟩

/-- C9: whenever `compile` returns an FSM (it does so only for the
`Char` and `Primitive` variants), every transition's `target_node` is a
valid index into the node arena. -/
theorem compile_targets_in_bounds (r : parse.Regex) (fsm : compile.RegexFsm)
    (h : compile.compile r = some fsm) :
    ∀ n ∈ fsm.nodes, ∀ t ∈ n.transitions, t.target_node < fsm.nodes.length := by
  cases r with
  | Choice a b =>
    rw [compile_choice_eq] at h
    exact Option.noConfusion h
  | Sequence ts =>
    rw [compile_sequence_eq] at h
    exact Option.noConfusion h
  | Repetition inner =>
    rw [compile_repetition_eq] at h
    exact Option.noConfusion h
  | Set es =>
    rw [compile_set_eq] at h
    exact Option.noConfusion h
  | Range rg =>
    rw [compile_range_eq] at h
    exact Option.noConfusion h
  | Primitive p =>
    rw [compile_primitive_eq] at h
    injection h with h2
    subst h2
    intro n hn t ht
    fin_cases hn <;> simp_all
  | Char c =>
    rw [compile_char_eq] at h
    injection h with h2
    subst h2
    intro n hn t ht
    fin_cases hn <;> simp_all

/-- Witness for C9's theorem at the concrete AST `Char('a')`. -/
theorem compile_targets_in_bounds_witness :
    compile.compile (parse.Regex.Char 'a') =
      some ⟨[⟨false, [⟨1, compile.TransitionType.Char 'a'⟩]⟩, ⟨false, []⟩]⟩ ∧
    (⟨1, compile.TransitionType.Char 'a'⟩ : compile.Transition).target_node <
      ([⟨false, [⟨1, compile.TransitionType.Char 'a'⟩]⟩,
        ⟨false, []⟩] : List compile.Node).length :=
  ⟨rfl,
    compile_targets_in_bounds (parse.Regex.Char 'a') _ rfl
      ⟨false, [⟨1, compile.TransitionType.Char 'a'⟩]⟩ (List.mem_cons_self _ _)
      ⟨1, compile.TransitionType.Char 'a'⟩ (List.mem_cons_self _ _)⟩

/-- C10: parsing the empty pattern succeeds with the empty sequence:
`Parser::term`'s loop exits immediately at end of input, so
`Parser::parse("")` is `Ok(Sequence([]))`. -/
theorem parse_empty_ok :
    parse.Parser.parse [] = parse.PRes.ok (parse.Regex.Sequence []) := rfl
